import Mathlib

/-!
Shallow embedding of the `Globe` server of the multiplayer-globe repository
(`src/server/index.ts`, together with the message shapes of `src/shared.ts`
and the earlier per-connection variant of the server kept in the repository).

The server keeps two JavaScript `Map`s (`debtors`, `userConnections`), a
per-connection state (`conn.setState`), and reacts to `onConnect`,
`onClose` and `onError` events.  JavaScript `Map`s are modelled as
insertion-ordered association lists with unique keys (`getA`, `setA`,
`delA` mirror `Map.get`, `Map.set`, `Map.delete`), and JavaScript `Set`s
of connection ids as duplicate-free lists (`addS` mirrors `Set.add`,
`List.filter` mirrors `Set.delete`).  `parseFloat` of a coordinate string
is modelled by carrying the coordinate string itself: no claim depends on
IEEE-754 numeric semantics, only on which value is stored where.
`Math.random()`-derived payload fields are modelled as an oracle value
(`RandomDraw`) supplied with each connect event.
-/

namespace Globe

/-- Map.get of a JavaScript Map modelled as an association list. -/
def getA {α : Type} (k : String) : List (String × α) → Option α
  | [] => none
  | (k', v) :: rest => if k' = k then some v else getA k rest

/-- Map.set of a JavaScript Map: replace the entry in place, else append. -/
def setA {α : Type} (k : String) (v : α) : List (String × α) → List (String × α)
  | [] => [(k, v)]
  | (k', v') :: rest => if k' = k then (k, v) :: rest else (k', v') :: setA k v rest

/-- Map.delete of a JavaScript Map (keys are unique, so removing every
entry with the key coincides with removing the entry). -/
def delA {α : Type} (k : String) : List (String × α) → List (String × α) :=
  fun l => l.filter (fun p => p.1 ≠ k)

/-- Set.add of a JavaScript Set: append the element if it is not present. -/
def addS (c : String) (l : List String) : List String :=
  if c ∈ l then l else l ++ [c]

/-- Position record of `src/shared.ts`; `lat`/`lng` carry the coordinate
strings fed to `parseFloat` (see the file comment). -/
structure Position where
  lat : String
  lng : String
  id : String
deriving DecidableEq, Repr

/-- DebtorInfo record of `src/shared.ts` (the optional `lastPaymentDate`
field is never written by the server and is omitted). -/
structure DebtorInfo where
  position : Position
  loanAmount : Nat
  outstandingBalance : Nat
  missedPayments : Nat
  dueDate : String
  interestRate : Nat
  status : String
  name : String
  phoneNumber : String
deriving DecidableEq, Repr

/-- Outcomes of the `Math.random()` calls made on the creation path,
supplied as an oracle with each connect event. -/
structure RandomDraw where
  loanAmount : Nat
  outstandingBalance : Nat
  missedPayments : Nat
  dueDate : String
  interestRate : Nat
  status : String
  phoneNumber : String
deriving DecidableEq, Repr

/-- Debtor record built on the creation path of `onConnect`:
`name` is derived from the userId, every other payload field from the
random draw. -/
def mkDebtorInfo (userId : String) (pos : Position) (r : RandomDraw) : DebtorInfo :=
  { position := pos
    loanAmount := r.loanAmount
    outstandingBalance := r.outstandingBalance
    missedPayments := r.missedPayments
    dueDate := r.dueDate
    interestRate := r.interestRate
    status := r.status
    name := "Debtor " ++ userId.take 6
    phoneNumber := r.phoneNumber }

/-- Wire messages: the three variants of `OutgoingMessage` in
`src/shared.ts` plus the untyped `{type: "error"}` message sent before
rejecting a connection. -/
inductive Msg where
  | addDebtor (debtor : DebtorInfo)
  | updateDebtor (debtor : DebtorInfo)
  | removeDebtor (id : String)
  | error (message : String)
deriving DecidableEq, Repr

/-- The discriminant checks used to classify emitted messages. -/
def Msg.isAddDebtor : Msg → Bool
  | .addDebtor _ => true
  | _ => false

def Msg.isUpdateDebtor : Msg → Bool
  | .updateDebtor _ => true
  | _ => false

def Msg.isRemoveDebtor : Msg → Bool
  | .removeDebtor _ => true
  | _ => false

def Msg.isError : Msg → Bool
  | .error _ => true
  | _ => false

/-- Per-connection state stored via `conn.setState` in `onConnect`. -/
structure ConnectionState where
  userId : String
  connectionId : String
deriving DecidableEq, Repr

/-- State of the Globe server instance: the two private maps, the state
attached to each connection, and the set of live connections the platform
enumerates for `broadcast`. -/
structure ServerState where
  debtors : List (String × DebtorInfo)
  userConnections : List (String × List String)
  connStates : List (String × ConnectionState)
  liveConns : List String
deriving DecidableEq, Repr

/-- Inputs read by `onConnect` from the request: the three query
parameters (`null` when absent) and the Cloudflare `request.cf`
geolocation fields (`undefined` when absent). -/
structure ConnectRequest where
  connId : String
  queryLat : Option String
  queryLng : Option String
  queryUserId : Option String
  cfLat : Option String
  cfLng : Option String
deriving DecidableEq, Repr

/-- JavaScript truthiness of a string-or-null value: `null`, `undefined`
and the empty string are falsy. -/
def jsTruthy : Option String → Bool
  | none => false
  | some s => !s.isEmpty

/-- JavaScript `a || b` for a string-or-null left operand. -/
def jsOrElse (a : Option String) (b : String) : String :=
  match a with
  | none => b
  | some s => if s.isEmpty then b else s

/-- Result of processing one event: the successor state, the messages
handed to the transport as (recipient connection id, message) pairs in
emission order, and the connection ids the server asked to close. -/
structure StepOut where
  state : ServerState
  sends : List (String × Msg)
  closes : List String
deriving DecidableEq, Repr

/-- Server.broadcast of partyserver: send one message to every live
connection whose id is not in the exclusion list. -/
def broadcastTo (live : List String) (excluded : List String) (m : Msg) :
    List (String × Msg) :=
  (live.filter (fun c => !(excluded.contains c))).map (fun c => (c, m))

/-- Globe.onConnect of `src/server/index.ts`.  The platform has already
accepted the connection, so it is part of the live set when the handler
runs; `conn.close()` on the rejection path removes it again. -/
def onConnect (s : ServerState) (req : ConnectRequest) (draw : RandomDraw) : StepOut :=
  let live := addS req.connId s.liveConns
  let userId := jsOrElse req.queryUserId req.connId
  let latlng : Option String × Option String :=
    if jsTruthy req.queryLat && jsTruthy req.queryLng then
      (req.queryLat, req.queryLng)
    else
      (req.cfLat, req.cfLng)
  if !jsTruthy latlng.1 || !jsTruthy latlng.2 then
    { state := { s with liveConns := live.filter (fun c => c ≠ req.connId) }
      sends := [(req.connId, Msg.error "GPS position required to use this application")]
      closes := [req.connId] }
  else
    let lat := latlng.1.getD ""
    let lng := latlng.2.getD ""
    let connStates' := setA req.connId ⟨userId, req.connId⟩ s.connStates
    let prior := (getA userId s.userConnections).getD []
    let userConnections' := setA userId (addS req.connId prior) s.userConnections
    match getA userId s.debtors with
    | none =>
      let position : Position := { lat := lat, lng := lng, id := userId }
      let debtorInfo := mkDebtorInfo userId position draw
      { state := { debtors := setA userId debtorInfo s.debtors
                   userConnections := userConnections'
                   connStates := connStates'
                   liveConns := live }
        sends := broadcastTo live [] (Msg.addDebtor debtorInfo)
        closes := [] }
    | some debtorInfo =>
      let updated : DebtorInfo :=
        { debtorInfo with position := { debtorInfo.position with lat := lat, lng := lng } }
      let debtors' := setA userId updated s.debtors
      { state := { debtors := debtors'
                   userConnections := userConnections'
                   connStates := connStates'
                   liveConns := live }
        sends := (req.connId, Msg.addDebtor updated) ::
          (debtors'.filter (fun p => p.1 ≠ userId)).map
            (fun p => (req.connId, Msg.addDebtor p.2))
        closes := [] }

/-- Globe.handleDisconnect of `src/server/index.ts`, invoked by both
`onClose` and `onError`.  The transport has already dropped the closed
connection from the live set; the connection's own state entry is kept
(the code never clears `connection.state`). -/
def handleDisconnect (s : ServerState) (connId : String) : StepOut :=
  let live := s.liveConns.filter (fun c => c ≠ connId)
  match getA connId s.connStates with
  | none => { state := { s with liveConns := live }, sends := [], closes := [] }
  | some st =>
    match getA st.userId s.userConnections with
    | none => { state := { s with liveConns := live }, sends := [], closes := [] }
    | some conns =>
      let conns' := conns.filter (fun c => c ≠ st.connectionId)
      if conns'.length = 0 then
        { state := { debtors := delA st.userId s.debtors
                     userConnections := delA st.userId s.userConnections
                     connStates := s.connStates
                     liveConns := live }
          sends := broadcastTo live [st.connectionId] (Msg.removeDebtor st.userId)
          closes := [] }
      else
        { state := { s with userConnections := setA st.userId conns' s.userConnections
                            liveConns := live }
          sends := [], closes := [] }

/-- Events delivered to the server by the transport. -/
inductive Event where
  | connect (req : ConnectRequest) (draw : RandomDraw)
  | disconnect (connId : String)
deriving DecidableEq, Repr

def step (s : ServerState) : Event → StepOut
  | .connect req draw => onConnect s req draw
  | .disconnect connId => handleDisconnect s connId

def stepState (s : ServerState) (e : Event) : ServerState := (step s e).state

/-- Initial state of a fresh Globe instance: both maps empty, no
connections. -/
def initState : ServerState := ⟨[], [], [], []⟩

/-- State after processing a sequence of events to completion. -/
def runState (es : List Event) : ServerState := es.foldl stepState initState

/-- All messages handed to the transport while processing a sequence of
events from the initial state, in emission order. -/
def runSendsFrom (s : ServerState) : List Event → List (String × Msg)
  | [] => []
  | e :: es => (step s e).sends ++ runSendsFrom (stepState s e) es

def runSends (es : List Event) : List (String × Msg) := runSendsFrom initState es

/-- Consistency of the Entity Store (`debtors`) with the Connection
Registry (`userConnections`): an identity has a debtor record exactly
when it has a non-empty set of registered connections. -/
def StoreRegistryConsistent (s : ServerState) : Prop :=
  ∀ u : String,
    (getA u s.debtors).isSome = true ↔
      ∃ l, getA u s.userConnections = some l ∧ l ≠ []

/-- Number of entries of an association list carrying a given key. -/
def keyCount {α : Type} (k : String) (l : List (String × α)) : Nat :=
  (l.filter (fun p => p.1 = k)).length

/-- Connect request of a client supplying GPS query parameters and a
persistent userId, with no Cloudflare geolocation data. -/
def gpsReq (connId userId lat lng : String) : ConnectRequest :=
  ⟨connId, some lat, some lng, some userId, none, none⟩

/-- Position-id discipline of the Entity Store: every debtor record is
keyed by a non-empty identity that equals its `position.id`. -/
def PositionIdConsistent (s : ServerState) : Prop :=
  ∀ u d, getA u s.debtors = some d → d.position.id = u ∧ u ≠ ""

/-- Guard on events used for the position-id invariant: the platform
hands `onConnect` a non-empty connection id. -/
def Event.connGood : Event → Prop
  | .connect req _ => req.connId ≠ ""
  | .disconnect _ => True

/-- One state of affairs in which the handle `c` is already disconnected:
either its identity was evicted altogether, or the identity's (non-empty)
connection set no longer holds the handle. -/
def AlreadyDisconnected (s : ServerState) (c : String) : Prop :=
  ∃ st, getA c s.connStates = some st ∧
    (getA st.userId s.userConnections = none ∨
      ∃ l, getA st.userId s.userConnections = some l ∧
        st.connectionId ∉ l ∧ l ≠ [])

end Globe

namespace GlobeV1

/-!
Model of the fan-out loop of the earlier per-connection variant of the
server kept in the repository (`Globe.onConnect` there): after creating
`debtorInfo` for the new connection `conn`, the handler loops over all
live connections, sending each connection's debtor to `conn` and
`debtorInfo` to every other connection, with the whole loop body wrapped
in `try ... catch { this.onCloseOrError(conn) }`.  A send failure is
modelled by an oracle list of connection ids whose `send` throws.
-/

open Globe (DebtorInfo Msg)

/-- One iteration of the fan-out loop for the entry
`(connection.id, connection.state.debtor)`: returns the messages actually
delivered and the connection ids passed to `onCloseOrError` by the catch
block. -/
def fanoutStep (connId : String) (debtorInfo : DebtorInfo) (failSet : List String)
    (entry : String × DebtorInfo) : List (String × Msg) × List String :=
  if failSet.contains connId then
    ([], [connId])
  else
    let first := [(connId, Msg.addDebtor entry.2)]
    if entry.1 ≠ connId then
      if failSet.contains entry.1 then
        (first, [connId])
      else
        (first ++ [(entry.1, Msg.addDebtor debtorInfo)], [])
    else
      (first, [])

/-- The whole fan-out loop over `getConnections()`: concatenates the
deliveries and cleanup targets of every iteration (the catch is inside
the loop, so an iteration's failure does not stop later iterations). -/
def fanoutLoop (connId : String) (debtorInfo : DebtorInfo) (failSet : List String)
    (connList : List (String × DebtorInfo)) : List (String × Msg) × List String :=
  connList.foldl
    (fun acc entry =>
      let r := fanoutStep connId debtorInfo failSet entry
      (acc.1 ++ r.1, acc.2 ++ r.2))
    ([], [])

end GlobeV1

namespace Globe

theorem getA_setA_self {α : Type} (k : String) (v : α) (l : List (String × α)) :
    getA k (setA k v l) = some v := by
  induction l with
  | nil => simp [getA, setA]
  | cons p rest ih =>
    obtain ⟨k', v'⟩ := p
    by_cases h : k' = k
    · simp [setA, h, getA]
    · simp [setA, h, getA, ih]

theorem getA_setA_ne {α : Type} {k u : String} (h : u ≠ k) (v : α)
    (l : List (String × α)) : getA u (setA k v l) = getA u l := by
  induction l with
  | nil =>
    have hku : ¬ k = u := fun hh => h hh.symm
    simp [getA, setA, hku]
  | cons p rest ih =>
    obtain ⟨k', v'⟩ := p
    by_cases hk : k' = k
    · subst hk
      have : ¬ (k' = u) := fun hh => h (hh ▸ rfl)
      simp [setA, getA, this]
    · by_cases hu : k' = u
      · simp [setA, hk, getA, hu, h]
      · simp [setA, hk, getA, hu, ih]

theorem getA_delA_self {α : Type} (k : String) (l : List (String × α)) :
    getA k (delA k l) = none := by
  induction l with
  | nil => simp [getA, delA]
  | cons p rest ih =>
    obtain ⟨k', v'⟩ := p
    by_cases h : k' = k
    · simpa [delA, h] using ih
    · simpa [delA, getA, h] using ih

theorem getA_delA_ne {α : Type} {k u : String} (h : u ≠ k)
    (l : List (String × α)) : getA u (delA k l) = getA u l := by
  have hku : ¬ k = u := fun hh => h hh.symm
  induction l with
  | nil => simp [delA]
  | cons p rest ih =>
    obtain ⟨k', v'⟩ := p
    by_cases hk : k' = k
    · subst hk
      simpa [delA, getA, hku] using ih
    · by_cases hu : k' = u
      · simp [delA, getA, hk, hu, h]
      · simpa [delA, getA, hk, hu] using ih

theorem addS_ne_nil (c : String) (l : List String) : addS c l ≠ [] := by
  by_cases h : c ∈ l
  · simpa [addS, h] using List.ne_nil_of_mem h
  · simp [addS, h]

theorem setA_eq_of_getA {α : Type} {k : String} {v : α} {l : List (String × α)}
    (h : getA k l = some v) : setA k v l = l := by
  induction l with
  | nil => simp [getA] at h
  | cons p rest ih =>
    obtain ⟨k', v'⟩ := p
    by_cases hk : k' = k
    · simp [getA, hk] at h
      simp [setA, hk, h]
    · simp [getA, hk] at h
      simp [setA, hk, ih h]

theorem filter_ne_nil_of_src {p : String → Bool} {l : List String}
    (h : l.filter p ≠ []) : l ≠ [] := by
  intro hl
  subst hl
  simp at h

end Globe

namespace Globe

theorem consistent_accept (s : ServerState) (uid cid : String) (d : DebtorInfo)
    (cs : List (String × ConnectionState)) (live : List String)
    (h : StoreRegistryConsistent s) :
    StoreRegistryConsistent
      ⟨setA uid d s.debtors,
        setA uid (addS cid ((getA uid s.userConnections).getD [])) s.userConnections,
        cs, live⟩ := by
  intro u
  by_cases hu : u = uid
  · subst hu
    simp [getA_setA_self, addS_ne_nil]
  · simp only [getA_setA_ne hu]
    simpa using h u

theorem consistent_stepState (s : ServerState) (e : Event)
    (h : StoreRegistryConsistent s) : StoreRegistryConsistent (stepState s e) := by
  cases e with
  | connect req draw =>
    simp only [stepState, step, onConnect]
    split
    · split
      · simpa [StoreRegistryConsistent] using h
      · split
        · exact consistent_accept s _ _ _ _ _ h
        · exact consistent_accept s _ _ _ _ _ h
    · split
      · simpa [StoreRegistryConsistent] using h
      · split
        · exact consistent_accept s _ _ _ _ _ h
        · exact consistent_accept s _ _ _ _ _ h
  | disconnect c =>
    simp only [stepState, step, handleDisconnect]
    split
    · simpa [StoreRegistryConsistent] using h
    · next st heq =>
      split
      · simpa [StoreRegistryConsistent] using h
      · next conns heq2 =>
        split
        · intro u
          by_cases hu : u = st.userId
          · subst hu
            simp [getA_delA_self]
          · simp [getA_delA_ne hu, h u]
        · next hlen =>
          intro u
          by_cases hu : u = st.userId
          · subst hu
            have hconsne : conns.filter (fun x => x ≠ st.connectionId) ≠ [] := by
              intro hnil
              exact hlen (by rw [hnil]; rfl)
            have hsrc : conns ≠ [] := filter_ne_nil_of_src hconsne
            have hdeb : (getA st.userId s.debtors).isSome = true :=
              (h st.userId).mpr ⟨conns, heq2, hsrc⟩
            simp [getA_setA_self, hdeb]
            simpa using hconsne
          · simp [getA_setA_ne hu, h u]

/-- Claim C1: for every finite sequence of connect and disconnect events
processed to completion, the set of identities present in the Entity
Store (the `debtors` map) equals exactly the set of identities with a
non-empty set of live connections in the `userConnections` map. -/
theorem C1_store_registry_consistency (es : List Event) :
    StoreRegistryConsistent (runState es) := by
  have main : ∀ (l : List Event) (s : ServerState), StoreRegistryConsistent s →
      StoreRegistryConsistent (l.foldl stepState s) := by
    intro l
    induction l with
    | nil =>
      intro s hs
      simpa using hs
    | cons e rest ih =>
      intro s hs
      exact ih _ (consistent_stepState s e hs)
  refine main es initState ?_
  intro u
  simp [initState, getA]

end Globe

namespace Globe

theorem isEmpty_false_of_ne {s : String} (h : s ≠ "") : s.isEmpty = false := by
  cases hs : s.isEmpty
  · rfl
  · exact absurd ((String.isEmpty_iff s).mp hs) h

theorem count_one_filter {l : List String} {a : String} (h : l.count a = 1) :
    l.filter (fun x => x = a) = [a] := by
  induction l with
  | nil => simp at h
  | cons b t ih =>
    by_cases hb : b = a
    · subst hb
      have ht : t.count b = 0 := by
        have := h
        rw [List.count_cons_self] at this
        omega
      have hnot : b ∉ t := List.count_eq_zero.mp ht
      have : t.filter (fun x => x = b) = [] := by
        refine List.filter_eq_nil_iff.mpr ?_
        intro x hx
        simp only [decide_eq_true_eq]
        intro hxb
        exact hnot (hxb ▸ hx)
      simp [List.filter, this]
    · have ht : t.count a = 1 := by
        rw [List.count_cons_of_ne (fun hh => hb hh.symm)] at h
        exact h
      simpa [List.filter, hb] using ih ht

theorem count_addS_ne {a c : String} (h : a ≠ c) (l : List String) :
    (addS c l).count a = l.count a := by
  by_cases hm : c ∈ l
  · simp [addS, hm]
  · simp [addS, hm, List.count_append, List.count_singleton, h]

theorem getA_none_keyCount {α : Type} {k : String} {l : List (String × α)}
    (h : getA k l = none) : keyCount k l = 0 := by
  induction l with
  | nil => simp [keyCount]
  | cons p rest ih =>
    obtain ⟨k', v'⟩ := p
    by_cases hk : k' = k
    · simp [getA, hk] at h
    · simp [getA, hk] at h
      simpa [keyCount, hk] using ih h

theorem keyCount_setA_of_none {α : Type} {k : String} {l : List (String × α)}
    (v : α) (h : getA k l = none) : keyCount k (setA k v l) = 1 := by
  induction l with
  | nil => simp [keyCount, setA]
  | cons p rest ih =>
    obtain ⟨k', v'⟩ := p
    by_cases hk : k' = k
    · simp [getA, hk] at h
    · simp [getA, hk] at h
      simpa [keyCount, setA, hk] using ih h

theorem keyCount_setA_of_some {α : Type} {k : String} {l : List (String × α)}
    {w : α} (v : α) (h : getA k l = some w) : keyCount k (setA k v l) = keyCount k l := by
  induction l with
  | nil => simp [getA] at h
  | cons p rest ih =>
    obtain ⟨k', v'⟩ := p
    by_cases hk : k' = k
    · simp [setA, hk, keyCount]
    · simp [getA, hk] at h
      simpa [keyCount, setA, hk] using ih h

end Globe

namespace Globe

theorem onConnect_gps_create (s : ServerState) (c u lat lng : String) (draw : RandomDraw)
    (hu : u ≠ "") (hlat : lat ≠ "") (hlng : lng ≠ "")
    (habs : getA u s.debtors = none) :
    onConnect s (gpsReq c u lat lng) draw =
      { state := { debtors := setA u (mkDebtorInfo u ⟨lat, lng, u⟩ draw) s.debtors
                   userConnections :=
                     setA u (addS c ((getA u s.userConnections).getD [])) s.userConnections
                   connStates := setA c ⟨u, c⟩ s.connStates
                   liveConns := addS c s.liveConns }
        sends := broadcastTo (addS c s.liveConns) []
          (Msg.addDebtor (mkDebtorInfo u ⟨lat, lng, u⟩ draw))
        closes := [] } := by
  simp [onConnect, gpsReq, jsTruthy, jsOrElse,
    isEmpty_false_of_ne hu, isEmpty_false_of_ne hlat, isEmpty_false_of_ne hlng, habs]

theorem onConnect_gps_rejoin (s : ServerState) (c u lat lng : String) (draw : RandomDraw)
    {d : DebtorInfo}
    (hu : u ≠ "") (hlat : lat ≠ "") (hlng : lng ≠ "")
    (hpres : getA u s.debtors = some d) :
    onConnect s (gpsReq c u lat lng) draw =
      { state := { debtors :=
                     setA u { d with position := { d.position with lat := lat, lng := lng } }
                       s.debtors
                   userConnections :=
                     setA u (addS c ((getA u s.userConnections).getD [])) s.userConnections
                   connStates := setA c ⟨u, c⟩ s.connStates
                   liveConns := addS c s.liveConns }
        sends := (c, Msg.addDebtor
            { d with position := { d.position with lat := lat, lng := lng } }) ::
          ((setA u { d with position := { d.position with lat := lat, lng := lng } }
              s.debtors).filter (fun p => p.1 ≠ u)).map
            (fun p => (c, Msg.addDebtor p.2))
        closes := [] } := by
  simp [onConnect, gpsReq, jsTruthy, jsOrElse,
    isEmpty_false_of_ne hu, isEmpty_false_of_ne hlat, isEmpty_false_of_ne hlng, hpres]

theorem mem_broadcastTo {live excluded : List String} {m : Msg}
    {x : String × Msg} (h : x ∈ broadcastTo live excluded m) : x.2 = m := by
  rcases List.mem_map.mp h with ⟨c, hc, hce⟩
  cases hce
  rfl

theorem step_sends_tags (s : ServerState) (e : Event) :
    ((step s e).sends).all
      (fun x => (x.2.isAddDebtor || x.2.isRemoveDebtor || x.2.isError) &&
        !x.2.isUpdateDebtor) = true := by
  cases e with
  | connect req draw =>
    simp only [step, onConnect]
    split
    · split
      · simp [Msg.isError, Msg.isUpdateDebtor]
      · split
        · simp [broadcastTo, List.all_eq_true, Msg.isAddDebtor, Msg.isUpdateDebtor]
        · refine List.all_eq_true.mpr ?_
          rintro ⟨a, b⟩ hmem
          rcases List.mem_cons.mp hmem with hh | hh
          · cases hh
            simp [Msg.isAddDebtor, Msg.isUpdateDebtor]
          · rcases List.mem_map.mp hh with ⟨q, hq, hqe⟩
            cases hqe
            simp [Msg.isAddDebtor, Msg.isUpdateDebtor]
    · split
      · simp [Msg.isError, Msg.isUpdateDebtor]
      · split
        · simp [broadcastTo, List.all_eq_true, Msg.isAddDebtor, Msg.isUpdateDebtor]
        · refine List.all_eq_true.mpr ?_
          rintro ⟨a, b⟩ hmem
          rcases List.mem_cons.mp hmem with hh | hh
          · cases hh
            simp [Msg.isAddDebtor, Msg.isUpdateDebtor]
          · rcases List.mem_map.mp hh with ⟨q, hq, hqe⟩
            cases hqe
            simp [Msg.isAddDebtor, Msg.isUpdateDebtor]
  | disconnect c =>
    simp only [step, handleDisconnect]
    split
    · simp
    · split
      · simp
      · split
        · refine List.all_eq_true.mpr ?_
          intro x hmem
          have hx := mem_broadcastTo hmem
          simp [hx, Msg.isRemoveDebtor, Msg.isUpdateDebtor]
        · simp

theorem runSendsFrom_tags (es : List Event) : ∀ s : ServerState,
    ((runSendsFrom s es).all
      (fun x => (x.2.isAddDebtor || x.2.isRemoveDebtor || x.2.isError) &&
        !x.2.isUpdateDebtor)) = true := by
  induction es with
  | nil =>
    intro s
    simp [runSendsFrom]
  | cons e rest ih =>
    intro s
    simp [runSendsFrom, List.all_append, step_sends_tags, ih]

/-- Claim C9: over every sequence of connect and disconnect events, every
message the engine emits is an `add-debtor`, `remove-debtor` or `error`
message, and never an `update-debtor` message. -/
theorem C9_never_update_debtor (es : List Event) :
    (runSends es).all
      (fun x => (x.2.isAddDebtor || x.2.isRemoveDebtor || x.2.isError) &&
        !x.2.isUpdateDebtor) = true := by
  simpa [runSends] using runSendsFrom_tags es initState

/-- Claim C2, evaluated at the failing input: after connection `A`
connects with fresh identity `u1` at (1,1), connection `B` connecting
with fresh identity `u2` at (2,2) makes the engine send only
`add-debtor{u2}` (to `A` and to `B`); `B` is never sent `u1`'s record,
so it does not obtain the complete snapshot the claim describes. -/
theorem C2_fresh_connect_misses_snapshot :
    (step (stepState initState
        (.connect (gpsReq "A" "u1" "1" "1")
          ⟨1000, 500, 1, "2026-01-01", 7, "active", "+855 11111111"⟩))
      (.connect (gpsReq "B" "u2" "2" "2")
        ⟨2000, 700, 2, "2026-02-02", 9, "active", "+855 22222222"⟩)).sends =
      [("A", Msg.addDebtor (mkDebtorInfo "u2" ⟨"2", "2", "u2"⟩
          ⟨2000, 700, 2, "2026-02-02", 9, "active", "+855 22222222"⟩)),
       ("B", Msg.addDebtor (mkDebtorInfo "u2" ⟨"2", "2", "u2"⟩
          ⟨2000, 700, 2, "2026-02-02", 9, "active", "+855 22222222"⟩))] ∧
    ("B", Msg.addDebtor (mkDebtorInfo "u1" ⟨"1", "1", "u1"⟩
        ⟨1000, 500, 1, "2026-01-01", 7, "active", "+855 11111111"⟩)) ∉
      (step (stepState initState
        (.connect (gpsReq "A" "u1" "1" "1")
          ⟨1000, 500, 1, "2026-01-01", 7, "active", "+855 11111111"⟩))
      (.connect (gpsReq "B" "u2" "2" "2")
        ⟨2000, 700, 2, "2026-02-02", 9, "active", "+855 22222222"⟩)).sends := by
  constructor
  · rfl
  · decide

/-- Claim C3 (counterexample): a connect whose request parameters lack
`lat`/`lng` but whose platform metadata carries coordinates is accepted
by the handler: it sends no error message, mutates the Entity Store, and
does not close the connection — refuting the claim that missing request
coordinates always produce one error, zero mutations and a close. -/
theorem C3_counterexample :
    ((onConnect initState ⟨"A", none, none, none, some "10", some "20"⟩
        ⟨1000, 500, 1, "2026-01-01", 7, "active", "+855 11111111"⟩).sends.all
      (fun x => !x.2.isError)) = true ∧
    (onConnect initState ⟨"A", none, none, none, some "10", some "20"⟩
        ⟨1000, 500, 1, "2026-01-01", 7, "active", "+855 11111111"⟩).state.debtors ≠ [] ∧
    (onConnect initState ⟨"A", none, none, none, some "10", some "20"⟩
        ⟨1000, 500, 1, "2026-01-01", 7, "active", "+855 11111111"⟩).closes = [] := by
  refine ⟨?_, ?_, ?_⟩ <;> decide

/-- Claim C8, evaluated at the failing input: in the earlier variant's
connect fan-out for newly connected `A` (with existing connections `B`
and `C`), when the send to `B` throws, the catch block passes `A` — the
connection that originated the event — to the close/error cleanup, not
`B`, while delivery still proceeds to `C` afterwards. -/
theorem C8_cleanup_targets_originator :
    GlobeV1.fanoutLoop "A"
      (mkDebtorInfo "A" ⟨"1", "1", "A"⟩ ⟨1000, 500, 1, "2026-01-01", 7, "active", "+855 11111111"⟩)
      ["B"]
      [("A", mkDebtorInfo "A" ⟨"1", "1", "A"⟩ ⟨1000, 500, 1, "2026-01-01", 7, "active", "+855 11111111"⟩),
       ("B", mkDebtorInfo "B" ⟨"2", "2", "B"⟩ ⟨2000, 700, 2, "2026-02-02", 9, "active", "+855 22222222"⟩),
       ("C", mkDebtorInfo "C" ⟨"3", "3", "C"⟩ ⟨3000, 900, 3, "2026-03-03", 11, "active", "+855 33333333"⟩)] =
      ([("A", Msg.addDebtor (mkDebtorInfo "A" ⟨"1", "1", "A"⟩
            ⟨1000, 500, 1, "2026-01-01", 7, "active", "+855 11111111"⟩)),
        ("A", Msg.addDebtor (mkDebtorInfo "B" ⟨"2", "2", "B"⟩
            ⟨2000, 700, 2, "2026-02-02", 9, "active", "+855 22222222"⟩)),
        ("A", Msg.addDebtor (mkDebtorInfo "C" ⟨"3", "3", "C"⟩
            ⟨3000, 900, 3, "2026-03-03", 11, "active", "+855 33333333"⟩)),
        ("C", Msg.addDebtor (mkDebtorInfo "A" ⟨"1", "1", "A"⟩
            ⟨1000, 500, 1, "2026-01-01", 7, "active", "+855 11111111"⟩))],
       ["A"]) := by
  rfl

end Globe

namespace Globe

theorem jsOrElse_ne_empty {a : Option String} {b : String} (hb : b ≠ "") :
    jsOrElse a b ≠ "" := by
  cases a with
  | none => simpa [jsOrElse] using hb
  | some s =>
    by_cases hs : s.isEmpty
    · simpa [jsOrElse, hs] using hb
    · have hsne : s ≠ "" := fun hh => hs (by rw [hh]; decide)
      simpa [jsOrElse, hs] using hsne

theorem filter_idem (p : String → Bool) (l : List String) :
    (l.filter p).filter p = l.filter p := by
  rw [List.filter_filter]
  simp

theorem broadcastTo_nil_excl (live : List String) (m : Msg) :
    broadcastTo live [] m = live.map (fun c => (c, m)) := by
  simp [broadcastTo]

theorem filter_fst_map_pair (l : List String) (m : Msg) (p : String) :
    ((l.map (fun c => (c, m))).filter (fun x => x.1 = p)) =
      (l.filter (fun c => c = p)).map (fun c => (c, m)) := by
  induction l with
  | nil => simp
  | cons a t ih =>
    by_cases h : a = p
    · simp [h, ih]
    · simp [h, ih]

theorem filter_fst_map_snd {β : Type} (l : List β) (f : β → Msg) (c p : String)
    (h : ¬ c = p) :
    ((l.map (fun y => (c, f y))).filter (fun x => x.1 = p)) = [] := by
  refine List.filter_eq_nil_iff.mpr ?_
  intro x hx
  rcases List.mem_map.mp hx with ⟨y, hy, hye⟩
  cases hye
  simpa using h

/-- Claim C3 (amended): when the request parameters lack usable `lat`/`lng`
values the handler falls back to the platform's IP-based coordinates; only
when those are also missing or empty does it send exactly one error
message to that connection, perform zero mutations of the Connection
Registry and the Entity Store, and close the connection. -/
theorem C3_missing_position_rejected (s : ServerState) (req : ConnectRequest)
    (draw : RandomDraw)
    (hq : (jsTruthy req.queryLat && jsTruthy req.queryLng) = false)
    (hcf : jsTruthy req.cfLat = false ∨ jsTruthy req.cfLng = false) :
    (onConnect s req draw).sends =
      [(req.connId, Msg.error "GPS position required to use this application")] ∧
    (onConnect s req draw).closes = [req.connId] ∧
    (onConnect s req draw).state.debtors = s.debtors ∧
    (onConnect s req draw).state.userConnections = s.userConnections ∧
    (onConnect s req draw).state.connStates = s.connStates := by
  have hcond : (!jsTruthy req.cfLat || !jsTruthy req.cfLng) = true := by
    rcases hcf with h | h <;> simp [h]
  simp [onConnect, hq, hcond]

/-- Witness for C3's amended theorem at a concrete rejected connect. -/
theorem C3_missing_position_rejected_witness :
    ((jsTruthy (ConnectRequest.mk "A" none none none none none).queryLat &&
      jsTruthy (ConnectRequest.mk "A" none none none none none).queryLng) = false) ∧
    (jsTruthy (ConnectRequest.mk "A" none none none none none).cfLat = false ∨
      jsTruthy (ConnectRequest.mk "A" none none none none none).cfLng = false) ∧
    ((onConnect initState ⟨"A", none, none, none, none, none⟩
        ⟨0, 0, 0, "", 0, "", ""⟩).sends =
      [(("A" : String), Msg.error "GPS position required to use this application")] ∧
    (onConnect initState ⟨"A", none, none, none, none, none⟩
        ⟨0, 0, 0, "", 0, "", ""⟩).closes = ["A"] ∧
    (onConnect initState ⟨"A", none, none, none, none, none⟩
        ⟨0, 0, 0, "", 0, "", ""⟩).state.debtors = initState.debtors ∧
    (onConnect initState ⟨"A", none, none, none, none, none⟩
        ⟨0, 0, 0, "", 0, "", ""⟩).state.userConnections = initState.userConnections ∧
    (onConnect initState ⟨"A", none, none, none, none, none⟩
        ⟨0, 0, 0, "", 0, "", ""⟩).state.connStates = initState.connStates) := by
  refine ⟨by decide, Or.inl (by decide), ?_⟩
  have hr : (ConnectRequest.mk "A" none none none none none).connId = "A" := rfl
  simpa [hr] using
    C3_missing_position_rejected initState ⟨"A", none, none, none, none, none⟩
      ⟨0, 0, 0, "", 0, "", ""⟩ (by decide) (Or.inl (by decide))

end Globe

namespace Globe

/-- Claim C4: for two successive accepted connects carrying the same
identity `u` (the first one fresh), exactly one debtor record for `u`
exists afterwards, a pre-existing peer `p` receives exactly one
`add-debtor` broadcast across both connects (the record created by the
first connect), and the second connect sends nothing to `p`. -/
theorem C4_same_identity_one_record_one_broadcast (s : ServerState)
    (u c1 c2 p lat1 lng1 lat2 lng2 : String) (draw1 draw2 : RandomDraw)
    (hu : u ≠ "") (hlat1 : lat1 ≠ "") (hlng1 : lng1 ≠ "")
    (hlat2 : lat2 ≠ "") (hlng2 : lng2 ≠ "")
    (habs : getA u s.debtors = none)
    (hp : s.liveConns.count p = 1)
    (hpc1 : p ≠ c1) (hpc2 : p ≠ c2) :
    keyCount u (stepState (stepState s (.connect (gpsReq c1 u lat1 lng1) draw1))
      (.connect (gpsReq c2 u lat2 lng2) draw2)).debtors = 1 ∧
    (((step s (.connect (gpsReq c1 u lat1 lng1) draw1)).sends ++
      (step (stepState s (.connect (gpsReq c1 u lat1 lng1) draw1))
        (.connect (gpsReq c2 u lat2 lng2) draw2)).sends).filter
      (fun x => x.1 = p)) =
      [(p, Msg.addDebtor (mkDebtorInfo u ⟨lat1, lng1, u⟩ draw1))] ∧
    ((step (stepState s (.connect (gpsReq c1 u lat1 lng1) draw1))
      (.connect (gpsReq c2 u lat2 lng2) draw2)).sends.filter
      (fun x => x.1 = p)) = [] := by
  have e1 := onConnect_gps_create s c1 u lat1 lng1 draw1 hu hlat1 hlng1 habs
  have hstep1 : step s (.connect (gpsReq c1 u lat1 lng1) draw1) =
      onConnect s (gpsReq c1 u lat1 lng1) draw1 := rfl
  have hs1 : stepState s (.connect (gpsReq c1 u lat1 lng1) draw1) =
      { debtors := setA u (mkDebtorInfo u ⟨lat1, lng1, u⟩ draw1) s.debtors
        userConnections := setA u (addS c1 ((getA u s.userConnections).getD []))
          s.userConnections
        connStates := setA c1 ⟨u, c1⟩ s.connStates
        liveConns := addS c1 s.liveConns } := by
    rw [stepState, hstep1, e1]
  have hpres : getA u (stepState s (.connect (gpsReq c1 u lat1 lng1) draw1)).debtors =
      some (mkDebtorInfo u ⟨lat1, lng1, u⟩ draw1) := by
    rw [hs1]
    exact getA_setA_self u _ s.debtors
  have e2 := onConnect_gps_rejoin (stepState s (.connect (gpsReq c1 u lat1 lng1) draw1))
    c2 u lat2 lng2 draw2 hu hlat2 hlng2 hpres
  have hstep2 : step (stepState s (.connect (gpsReq c1 u lat1 lng1) draw1))
      (.connect (gpsReq c2 u lat2 lng2) draw2) =
      onConnect (stepState s (.connect (gpsReq c1 u lat1 lng1) draw1))
        (gpsReq c2 u lat2 lng2) draw2 := rfl
  have hc2p : ¬ c2 = p := fun hh => hpc2 hh.symm
  have h3 : ((step (stepState s (.connect (gpsReq c1 u lat1 lng1) draw1))
      (.connect (gpsReq c2 u lat2 lng2) draw2)).sends.filter
      (fun x => x.1 = p)) = [] := by
    rw [hstep2, e2]
    refine List.filter_eq_nil_iff.mpr ?_
    intro x hx
    rcases List.mem_cons.mp hx with hh | hh
    · cases hh
      simpa using hc2p
    · rcases List.mem_map.mp hh with ⟨y, hy, hye⟩
      cases hye
      simpa using hc2p
  have hcnt : (addS c1 s.liveConns).count p = 1 := by
    rw [count_addS_ne hpc1]
    exact hp
  have h2 : ((step s (.connect (gpsReq c1 u lat1 lng1) draw1)).sends.filter
      (fun x => x.1 = p)) =
      [(p, Msg.addDebtor (mkDebtorInfo u ⟨lat1, lng1, u⟩ draw1))] := by
    rw [hstep1, e1]
    show ((broadcastTo (addS c1 s.liveConns) []
      (Msg.addDebtor (mkDebtorInfo u ⟨lat1, lng1, u⟩ draw1))).filter
        (fun x => x.1 = p)) = _
    rw [broadcastTo_nil_excl, filter_fst_map_pair, count_one_filter hcnt]
    rfl
  refine ⟨?_, ?_, h3⟩
  · rw [stepState, hstep2, e2]
    show keyCount u (setA u _ (stepState s (.connect (gpsReq c1 u lat1 lng1) draw1)).debtors) = 1
    rw [hs1]
    show keyCount u (setA u _ (setA u (mkDebtorInfo u ⟨lat1, lng1, u⟩ draw1) s.debtors)) = 1
    rw [keyCount_setA_of_some _ (getA_setA_self u (mkDebtorInfo u ⟨lat1, lng1, u⟩ draw1) s.debtors)]
    exact keyCount_setA_of_none _ habs
  · rw [List.filter_append, h2, h3]
    rfl

end Globe

namespace Globe

/-- Witness for C4 at a concrete state with one pre-existing peer `P`. -/
theorem C4_same_identity_one_record_one_broadcast_witness :
    ("u" : String) ≠ "" ∧ ("1" : String) ≠ "" ∧ ("2" : String) ≠ "" ∧
    getA "u" (ServerState.mk [] [] [] ["P"]).debtors = none ∧
    (ServerState.mk [] [] [] ["P"]).liveConns.count "P" = 1 ∧
    ("P" : String) ≠ "A" ∧ ("P" : String) ≠ "B" ∧
    (keyCount "u" (stepState (stepState (ServerState.mk [] [] [] ["P"])
        (.connect (gpsReq "A" "u" "1" "1") ⟨10, 20, 1, "d1", 5, "active", "p1"⟩))
      (.connect (gpsReq "B" "u" "2" "2") ⟨30, 40, 2, "d2", 6, "active", "p2"⟩)).debtors = 1 ∧
    (((step (ServerState.mk [] [] [] ["P"])
        (.connect (gpsReq "A" "u" "1" "1") ⟨10, 20, 1, "d1", 5, "active", "p1"⟩)).sends ++
      (step (stepState (ServerState.mk [] [] [] ["P"])
          (.connect (gpsReq "A" "u" "1" "1") ⟨10, 20, 1, "d1", 5, "active", "p1"⟩))
        (.connect (gpsReq "B" "u" "2" "2") ⟨30, 40, 2, "d2", 6, "active", "p2"⟩)).sends).filter
      (fun x => x.1 = "P")) =
      [(("P" : String), Msg.addDebtor (mkDebtorInfo "u" ⟨"1", "1", "u"⟩
        ⟨10, 20, 1, "d1", 5, "active", "p1"⟩))] ∧
    ((step (stepState (ServerState.mk [] [] [] ["P"])
        (.connect (gpsReq "A" "u" "1" "1") ⟨10, 20, 1, "d1", 5, "active", "p1"⟩))
      (.connect (gpsReq "B" "u" "2" "2") ⟨30, 40, 2, "d2", 6, "active", "p2"⟩)).sends.filter
      (fun x => x.1 = "P")) = []) :=
  ⟨by decide, by decide, by decide, by decide, by decide, by decide, by decide,
    C4_same_identity_one_record_one_broadcast (ServerState.mk [] [] [] ["P"])
      "u" "A" "B" "P" "1" "1" "2" "2"
      ⟨10, 20, 1, "d1", 5, "active", "p1"⟩ ⟨30, 40, 2, "d2", 6, "active", "p2"⟩
      (by decide) (by decide) (by decide) (by decide) (by decide) (by decide)
      (by decide) (by decide) (by decide)⟩

end Globe

namespace Globe

/-- Claim C5: with identity `u` holding exactly the two live connections
`a` and `b`, disconnecting `a` emits zero `remove-debtor` broadcasts and
keeps `u`'s record; then disconnecting `b` (the last connection) removes
the record and emits exactly one `remove-debtor` broadcast, delivered to
every remaining live connection and not to the closed handles. -/
theorem C5_last_disconnect_broadcasts_once (s : ServerState) (u a b : String)
    (d : DebtorInfo)
    (hab : a ≠ b)
    (ha : getA a s.connStates = some ⟨u, a⟩)
    (hb : getA b s.connStates = some ⟨u, b⟩)
    (hconns : getA u s.userConnections = some [a, b])
    (hd : getA u s.debtors = some d) :
    (handleDisconnect s a).sends = [] ∧
    getA u (handleDisconnect s a).state.debtors = some d ∧
    (handleDisconnect (handleDisconnect s a).state b).sends =
      ((s.liveConns.filter (fun c => c ≠ a)).filter (fun c => c ≠ b)).map
        (fun c => (c, Msg.removeDebtor u)) ∧
    getA u (handleDisconnect (handleDisconnect s a).state b).state.debtors = none := by
  have hba : ¬ b = a := fun hh => hab hh.symm
  have h1 : handleDisconnect s a =
      { state := { s with userConnections := setA u [b] s.userConnections
                          liveConns := s.liveConns.filter (fun c => c ≠ a) }
        sends := [], closes := [] } := by
    simp [handleDisconnect, ha, hconns, hba]
  have h2 : handleDisconnect
      { s with userConnections := setA u [b] s.userConnections
               liveConns := s.liveConns.filter (fun c => c ≠ a) } b =
      { state := { debtors := delA u s.debtors
                   userConnections := delA u (setA u [b] s.userConnections)
                   connStates := s.connStates
                   liveConns := (s.liveConns.filter (fun c => c ≠ a)).filter
                     (fun c => c ≠ b) }
        sends := broadcastTo ((s.liveConns.filter (fun c => c ≠ a)).filter
            (fun c => c ≠ b)) [b] (Msg.removeDebtor u)
        closes := [] } := by
    simp [handleDisconnect, hb, getA_setA_self]
  have hflt : ((s.liveConns.filter (fun c => c ≠ a)).filter (fun c => c ≠ b)).filter
      (fun c => !([b].contains c)) =
      (s.liveConns.filter (fun c => c ≠ a)).filter (fun c => c ≠ b) := by
    refine List.filter_eq_self.mpr ?_
    intro x hx
    have hxb : ¬ x = b := by
      have := List.of_mem_filter hx
      simpa using this
    simp [hxb]
  refine ⟨by rw [h1], by rw [h1]; exact hd, ?_, ?_⟩
  · rw [h1]
    show (handleDisconnect
      { s with userConnections := setA u [b] s.userConnections
               liveConns := s.liveConns.filter (fun c => c ≠ a) } b).sends = _
    rw [h2]
    show broadcastTo ((s.liveConns.filter (fun c => c ≠ a)).filter (fun c => c ≠ b))
        [b] (Msg.removeDebtor u) = _
    rw [broadcastTo, hflt]
  · rw [h1]
    show getA u (handleDisconnect
      { s with userConnections := setA u [b] s.userConnections
               liveConns := s.liveConns.filter (fun c => c ≠ a) } b).state.debtors = none
    rw [h2]
    show getA u (delA u s.debtors) = none
    exact getA_delA_self u s.debtors

end Globe

namespace Globe

/-- Witness for C5 at a concrete state with connections A, B (identity u)
and a bystander connection C. -/
theorem C5_last_disconnect_broadcasts_once_witness :
    ("A" : String) ≠ "B" ∧
    getA "A" (ServerState.mk [("u", mkDebtorInfo "u" ⟨"0", "0", "u"⟩ ⟨1, 2, 3, "d", 4, "active", "p"⟩)]
      [("u", ["A", "B"])] [("A", ⟨"u", "A"⟩), ("B", ⟨"u", "B"⟩)] ["A", "B", "C"]).connStates =
      some ⟨"u", "A"⟩ ∧
    getA "B" (ServerState.mk [("u", mkDebtorInfo "u" ⟨"0", "0", "u"⟩ ⟨1, 2, 3, "d", 4, "active", "p"⟩)]
      [("u", ["A", "B"])] [("A", ⟨"u", "A"⟩), ("B", ⟨"u", "B"⟩)] ["A", "B", "C"]).connStates =
      some ⟨"u", "B"⟩ ∧
    getA "u" (ServerState.mk [("u", mkDebtorInfo "u" ⟨"0", "0", "u"⟩ ⟨1, 2, 3, "d", 4, "active", "p"⟩)]
      [("u", ["A", "B"])] [("A", ⟨"u", "A"⟩), ("B", ⟨"u", "B"⟩)] ["A", "B", "C"]).userConnections =
      some ["A", "B"] ∧
    getA "u" (ServerState.mk [("u", mkDebtorInfo "u" ⟨"0", "0", "u"⟩ ⟨1, 2, 3, "d", 4, "active", "p"⟩)]
      [("u", ["A", "B"])] [("A", ⟨"u", "A"⟩), ("B", ⟨"u", "B"⟩)] ["A", "B", "C"]).debtors =
      some (mkDebtorInfo "u" ⟨"0", "0", "u"⟩ ⟨1, 2, 3, "d", 4, "active", "p"⟩) ∧
    ((handleDisconnect (ServerState.mk [("u", mkDebtorInfo "u" ⟨"0", "0", "u"⟩ ⟨1, 2, 3, "d", 4, "active", "p"⟩)]
        [("u", ["A", "B"])] [("A", ⟨"u", "A"⟩), ("B", ⟨"u", "B"⟩)] ["A", "B", "C"]) "A").sends = [] ∧
    getA "u" (handleDisconnect (ServerState.mk [("u", mkDebtorInfo "u" ⟨"0", "0", "u"⟩ ⟨1, 2, 3, "d", 4, "active", "p"⟩)]
        [("u", ["A", "B"])] [("A", ⟨"u", "A"⟩), ("B", ⟨"u", "B"⟩)] ["A", "B", "C"]) "A").state.debtors =
      some (mkDebtorInfo "u" ⟨"0", "0", "u"⟩ ⟨1, 2, 3, "d", 4, "active", "p"⟩) ∧
    (handleDisconnect (handleDisconnect (ServerState.mk [("u", mkDebtorInfo "u" ⟨"0", "0", "u"⟩ ⟨1, 2, 3, "d", 4, "active", "p"⟩)]
        [("u", ["A", "B"])] [("A", ⟨"u", "A"⟩), ("B", ⟨"u", "B"⟩)] ["A", "B", "C"]) "A").state "B").sends =
      (((ServerState.mk [("u", mkDebtorInfo "u" ⟨"0", "0", "u"⟩ ⟨1, 2, 3, "d", 4, "active", "p"⟩)]
        [("u", ["A", "B"])] [("A", ⟨"u", "A"⟩), ("B", ⟨"u", "B"⟩)] ["A", "B", "C"]).liveConns.filter
          (fun c => c ≠ "A")).filter (fun c => c ≠ "B")).map
        (fun c => (c, Msg.removeDebtor "u")) ∧
    getA "u" (handleDisconnect (handleDisconnect (ServerState.mk [("u", mkDebtorInfo "u" ⟨"0", "0", "u"⟩ ⟨1, 2, 3, "d", 4, "active", "p"⟩)]
        [("u", ["A", "B"])] [("A", ⟨"u", "A"⟩), ("B", ⟨"u", "B"⟩)] ["A", "B", "C"]) "A").state "B").state.debtors =
      none) :=
  ⟨by decide, by decide, by decide, by decide, by decide,
    C5_last_disconnect_broadcasts_once
      (ServerState.mk [("u", mkDebtorInfo "u" ⟨"0", "0", "u"⟩ ⟨1, 2, 3, "d", 4, "active", "p"⟩)]
        [("u", ["A", "B"])] [("A", ⟨"u", "A"⟩), ("B", ⟨"u", "B"⟩)] ["A", "B", "C"])
      "u" "A" "B" (mkDebtorInfo "u" ⟨"0", "0", "u"⟩ ⟨1, 2, 3, "d", 4, "active", "p"⟩)
      (by decide) (by decide) (by decide) (by decide) (by decide)⟩

end Globe

namespace Globe

theorem posid_create (s : ServerState) (uid : String) (pos : Position)
    (draw : RandomDraw) (uc : List (String × List String))
    (cs : List (String × ConnectionState)) (live : List String)
    (hpos : pos.id = uid) (huid : uid ≠ "") (h : PositionIdConsistent s) :
    PositionIdConsistent ⟨setA uid (mkDebtorInfo uid pos draw) s.debtors, uc, cs, live⟩ := by
  intro u d hd
  by_cases hu : u = uid
  · subst hu
    simp only [getA_setA_self] at hd
    cases hd
    exact ⟨hpos, huid⟩
  · simp only [getA_setA_ne hu] at hd
    exact h u d hd

theorem posid_rejoin (s : ServerState) (uid lat lng : String) (d0 : DebtorInfo)
    (uc : List (String × List String)) (cs : List (String × ConnectionState))
    (live : List String)
    (hpres : getA uid s.debtors = some d0) (h : PositionIdConsistent s) :
    PositionIdConsistent
      ⟨setA uid { d0 with position := { d0.position with lat := lat, lng := lng } }
        s.debtors, uc, cs, live⟩ := by
  intro u d hd
  by_cases hu : u = uid
  · subst hu
    simp only [getA_setA_self] at hd
    cases hd
    rcases h u d0 hpres with ⟨hid, hne⟩
    exact ⟨hid, hne⟩
  · simp only [getA_setA_ne hu] at hd
    exact h u d hd

theorem posid_del (s : ServerState) (uid : String)
    (uc : List (String × List String)) (cs : List (String × ConnectionState))
    (live : List String) (h : PositionIdConsistent s) :
    PositionIdConsistent ⟨delA uid s.debtors, uc, cs, live⟩ := by
  intro u d hd
  by_cases hu : u = uid
  · subst hu
    simp only [getA_delA_self] at hd
    cases hd
  · simp only [getA_delA_ne hu] at hd
    exact h u d hd

/-- Claim C6: every operation of the engine (connect with a fresh
identity, re-join with an existing identity, disconnect) preserves the
invariant that every record in the Entity Store is keyed by a non-empty
identity that equals its `position.id`, assuming the platform hands
`onConnect` a non-empty connection id. -/
theorem C6_position_id_invariant (s : ServerState) (e : Event)
    (hgood : e.connGood) (h : PositionIdConsistent s) :
    PositionIdConsistent (stepState s e) := by
  cases e with
  | connect req draw =>
    have huid : jsOrElse req.queryUserId req.connId ≠ "" :=
      jsOrElse_ne_empty hgood
    simp only [stepState, step, onConnect]
    split
    · split
      · simpa [PositionIdConsistent] using h
      · split
        · exact posid_create s _ _ draw _ _ _ rfl huid h
        · next dd heq =>
          exact posid_rejoin s _ _ _ dd _ _ _ heq h
    · split
      · simpa [PositionIdConsistent] using h
      · split
        · exact posid_create s _ _ draw _ _ _ rfl huid h
        · next dd heq =>
          exact posid_rejoin s _ _ _ dd _ _ _ heq h
  | disconnect c =>
    simp only [stepState, step, handleDisconnect]
    split
    · simpa [PositionIdConsistent] using h
    · split
      · simpa [PositionIdConsistent] using h
      · split
        · exact posid_del s _ _ _ _ h
        · simpa [PositionIdConsistent] using h

/-- Witness for C6 at a fresh connect on the empty initial state. -/
theorem C6_position_id_invariant_witness :
    Event.connGood (Event.connect (gpsReq "A" "u" "1" "2")
      ⟨1, 2, 3, "d", 4, "active", "p"⟩) ∧
    PositionIdConsistent initState ∧
    PositionIdConsistent (stepState initState
      (Event.connect (gpsReq "A" "u" "1" "2") ⟨1, 2, 3, "d", 4, "active", "p"⟩)) := by
  have hg : Event.connGood (Event.connect (gpsReq "A" "u" "1" "2")
      ⟨1, 2, 3, "d", 4, "active", "p"⟩) :=
    (by decide : ("A" : String) ≠ "")
  have hp : PositionIdConsistent initState := by
    intro u d hd
    simp [initState, getA] at hd
  exact ⟨hg, hp, C6_position_id_invariant initState _ hg hp⟩

end Globe

namespace Globe

/-- Claim C7: a re-join (a connect for an identity that already has a
record) changes only the record's position `lat` and `lng`: the position
`id` and every payload field keep their prior values, the stored record
is independent of the freshly drawn payload (the factory's output is
unused — the conclusion does not mention `draw`), every other record is
untouched, and every message of the step is addressed to the newly
joined connection only. -/
theorem C7_rejoin_frame (s : ServerState) (c u lat lng : String)
    (draw : RandomDraw) (d : DebtorInfo)
    (hu : u ≠ "") (hlat : lat ≠ "") (hlng : lng ≠ "")
    (hpres : getA u s.debtors = some d) :
    getA u (stepState s (.connect (gpsReq c u lat lng) draw)).debtors =
      some { d with position := { d.position with lat := lat, lng := lng } } ∧
    (∀ v, v ≠ u → getA v (stepState s (.connect (gpsReq c u lat lng) draw)).debtors =
      getA v s.debtors) ∧
    (∀ x ∈ (step s (.connect (gpsReq c u lat lng) draw)).sends, x.1 = c) := by
  have e := onConnect_gps_rejoin s c u lat lng draw hu hlat hlng hpres
  have hstep : step s (.connect (gpsReq c u lat lng) draw) =
      onConnect s (gpsReq c u lat lng) draw := rfl
  refine ⟨?_, ?_, ?_⟩
  · rw [stepState, hstep, e]
    exact getA_setA_self u _ s.debtors
  · intro v hv
    rw [stepState, hstep, e]
    exact getA_setA_ne hv _ s.debtors
  · intro x hx
    rw [hstep, e] at hx
    rcases List.mem_cons.mp hx with hh | hh
    · rw [hh]
    · rcases List.mem_map.mp hh with ⟨y, hy, hye⟩
      rw [← hye]

/-- Witness for C7 at a concrete one-record state. -/
theorem C7_rejoin_frame_witness :
    ("u" : String) ≠ "" ∧ ("5" : String) ≠ "" ∧ ("6" : String) ≠ "" ∧
    getA "u" (ServerState.mk
      [("u", mkDebtorInfo "u" ⟨"0", "0", "u"⟩ ⟨1, 2, 3, "d", 4, "active", "p"⟩)]
      [("u", ["A"])] [("A", ⟨"u", "A"⟩)] ["A"]).debtors =
      some (mkDebtorInfo "u" ⟨"0", "0", "u"⟩ ⟨1, 2, 3, "d", 4, "active", "p"⟩) ∧
    (getA "u" (stepState (ServerState.mk
        [("u", mkDebtorInfo "u" ⟨"0", "0", "u"⟩ ⟨1, 2, 3, "d", 4, "active", "p"⟩)]
        [("u", ["A"])] [("A", ⟨"u", "A"⟩)] ["A"])
      (.connect (gpsReq "B" "u" "5" "6") ⟨9, 9, 9, "x", 9, "defaulted", "q"⟩)).debtors =
      some { mkDebtorInfo "u" ⟨"0", "0", "u"⟩ ⟨1, 2, 3, "d", 4, "active", "p"⟩ with
        position := { (mkDebtorInfo "u" ⟨"0", "0", "u"⟩
          ⟨1, 2, 3, "d", 4, "active", "p"⟩).position with lat := "5", lng := "6" } } ∧
    (∀ v, v ≠ "u" → getA v (stepState (ServerState.mk
        [("u", mkDebtorInfo "u" ⟨"0", "0", "u"⟩ ⟨1, 2, 3, "d", 4, "active", "p"⟩)]
        [("u", ["A"])] [("A", ⟨"u", "A"⟩)] ["A"])
      (.connect (gpsReq "B" "u" "5" "6") ⟨9, 9, 9, "x", 9, "defaulted", "q"⟩)).debtors =
      getA v (ServerState.mk
        [("u", mkDebtorInfo "u" ⟨"0", "0", "u"⟩ ⟨1, 2, 3, "d", 4, "active", "p"⟩)]
        [("u", ["A"])] [("A", ⟨"u", "A"⟩)] ["A"]).debtors) ∧
    (∀ x ∈ (step (ServerState.mk
        [("u", mkDebtorInfo "u" ⟨"0", "0", "u"⟩ ⟨1, 2, 3, "d", 4, "active", "p"⟩)]
        [("u", ["A"])] [("A", ⟨"u", "A"⟩)] ["A"])
      (.connect (gpsReq "B" "u" "5" "6") ⟨9, 9, 9, "x", 9, "defaulted", "q"⟩)).sends,
      x.1 = "B")) :=
  ⟨by decide, by decide, by decide, by decide,
    C7_rejoin_frame (ServerState.mk
      [("u", mkDebtorInfo "u" ⟨"0", "0", "u"⟩ ⟨1, 2, 3, "d", 4, "active", "p"⟩)]
      [("u", ["A"])] [("A", ⟨"u", "A"⟩)] ["A"]) "B" "u" "5" "6"
      ⟨9, 9, 9, "x", 9, "defaulted", "q"⟩
      (mkDebtorInfo "u" ⟨"0", "0", "u"⟩ ⟨1, 2, 3, "d", 4, "active", "p"⟩)
      (by decide) (by decide) (by decide) (by decide)⟩

end Globe

namespace Globe

/-- Claim C10: the disconnect handler is total and idempotent: invoked
for a connection that never entered the Live state (no connection state
was set) or for a handle already removed from the registry, it leaves
the Connection Registry and the Entity Store unchanged and sends no
message; running it a second time for the same handle returns the same
state and again sends nothing. -/
theorem C10_disconnect_idempotent (s : ServerState) (c : String)
    (h : getA c s.connStates = none ∨ AlreadyDisconnected s c) :
    (handleDisconnect s c).sends = [] ∧
    (handleDisconnect s c).closes = [] ∧
    (handleDisconnect s c).state.debtors = s.debtors ∧
    (handleDisconnect s c).state.userConnections = s.userConnections ∧
    (handleDisconnect s c).state.connStates = s.connStates ∧
    (handleDisconnect (handleDisconnect s c).state c).state =
      (handleDisconnect s c).state ∧
    (handleDisconnect (handleDisconnect s c).state c).sends = [] := by
  rcases h with hnone | ⟨st, hst, hrest⟩
  · have h1 : handleDisconnect s c =
        { state := { s with liveConns := s.liveConns.filter (fun x => !decide (x = c)) }
          sends := [], closes := [] } := by
      simp [handleDisconnect, hnone]
    have h2 : handleDisconnect
        { s with liveConns := s.liveConns.filter (fun x => !decide (x = c)) } c =
        { state := { s with liveConns := s.liveConns.filter (fun x => !decide (x = c)) }
          sends := [], closes := [] } := by
      simp [handleDisconnect, hnone, filter_idem]
    simp [h1, h2]
  · rcases hrest with huc | ⟨l, hl, hmem, hne⟩
    · have h1 : handleDisconnect s c =
          { state := { s with liveConns := s.liveConns.filter (fun x => !decide (x = c)) }
            sends := [], closes := [] } := by
        simp [handleDisconnect, hst, huc]
      have h2 : handleDisconnect
          { s with liveConns := s.liveConns.filter (fun x => !decide (x = c)) } c =
          { state := { s with liveConns := s.liveConns.filter (fun x => !decide (x = c)) }
            sends := [], closes := [] } := by
        simp [handleDisconnect, hst, huc, filter_idem]
      simp [h1, h2]
    · have hfl : l.filter (fun x => !decide (x = st.connectionId)) = l := by
        refine List.filter_eq_self.mpr ?_
        intro x hx
        simp only [Bool.not_eq_true', decide_eq_false_iff_not]
        intro hh
        exact hmem (hh ▸ hx)
      have hcond : ¬ ∀ a ∈ l, a = st.connectionId := by
        intro hall
        rcases List.exists_mem_of_ne_nil l hne with ⟨x, hx⟩
        exact hmem ((hall x hx) ▸ hx)
      have h1 : handleDisconnect s c =
          { state := { s with liveConns := s.liveConns.filter (fun x => !decide (x = c)) }
            sends := [], closes := [] } := by
        simp [handleDisconnect, hst, hl, hfl, hcond, setA_eq_of_getA hl]
        intro hnil
        exact absurd hnil hne
      have h2 : handleDisconnect
          { s with liveConns := s.liveConns.filter (fun x => !decide (x = c)) } c =
          { state := { s with liveConns := s.liveConns.filter (fun x => !decide (x = c)) }
            sends := [], closes := [] } := by
        simp [handleDisconnect, hst, hl, hfl, hcond, setA_eq_of_getA hl, filter_idem]
        intro hnil
        exact absurd hnil hne
      simp [h1, h2]

/-- Witness for C10: a stale disconnect for handle A whose identity
still has the live connection B. -/
theorem C10_disconnect_idempotent_witness :
    (getA "A" (ServerState.mk
      [("u", mkDebtorInfo "u" ⟨"0", "0", "u"⟩ ⟨1, 2, 3, "d", 4, "active", "p"⟩)]
      [("u", ["B"])] [("A", ⟨"u", "A"⟩), ("B", ⟨"u", "B"⟩)] ["B"]).connStates = none ∨
      AlreadyDisconnected (ServerState.mk
        [("u", mkDebtorInfo "u" ⟨"0", "0", "u"⟩ ⟨1, 2, 3, "d", 4, "active", "p"⟩)]
        [("u", ["B"])] [("A", ⟨"u", "A"⟩), ("B", ⟨"u", "B"⟩)] ["B"]) "A") ∧
    ((handleDisconnect (ServerState.mk
        [("u", mkDebtorInfo "u" ⟨"0", "0", "u"⟩ ⟨1, 2, 3, "d", 4, "active", "p"⟩)]
        [("u", ["B"])] [("A", ⟨"u", "A"⟩), ("B", ⟨"u", "B"⟩)] ["B"]) "A").sends = [] ∧
    (handleDisconnect (ServerState.mk
        [("u", mkDebtorInfo "u" ⟨"0", "0", "u"⟩ ⟨1, 2, 3, "d", 4, "active", "p"⟩)]
        [("u", ["B"])] [("A", ⟨"u", "A"⟩), ("B", ⟨"u", "B"⟩)] ["B"]) "A").closes = [] ∧
    (handleDisconnect (ServerState.mk
        [("u", mkDebtorInfo "u" ⟨"0", "0", "u"⟩ ⟨1, 2, 3, "d", 4, "active", "p"⟩)]
        [("u", ["B"])] [("A", ⟨"u", "A"⟩), ("B", ⟨"u", "B"⟩)] ["B"]) "A").state.debtors =
      (ServerState.mk
        [("u", mkDebtorInfo "u" ⟨"0", "0", "u"⟩ ⟨1, 2, 3, "d", 4, "active", "p"⟩)]
        [("u", ["B"])] [("A", ⟨"u", "A"⟩), ("B", ⟨"u", "B"⟩)] ["B"]).debtors ∧
    (handleDisconnect (ServerState.mk
        [("u", mkDebtorInfo "u" ⟨"0", "0", "u"⟩ ⟨1, 2, 3, "d", 4, "active", "p"⟩)]
        [("u", ["B"])] [("A", ⟨"u", "A"⟩), ("B", ⟨"u", "B"⟩)] ["B"]) "A").state.userConnections =
      (ServerState.mk
        [("u", mkDebtorInfo "u" ⟨"0", "0", "u"⟩ ⟨1, 2, 3, "d", 4, "active", "p"⟩)]
        [("u", ["B"])] [("A", ⟨"u", "A"⟩), ("B", ⟨"u", "B"⟩)] ["B"]).userConnections ∧
    (handleDisconnect (ServerState.mk
        [("u", mkDebtorInfo "u" ⟨"0", "0", "u"⟩ ⟨1, 2, 3, "d", 4, "active", "p"⟩)]
        [("u", ["B"])] [("A", ⟨"u", "A"⟩), ("B", ⟨"u", "B"⟩)] ["B"]) "A").state.connStates =
      (ServerState.mk
        [("u", mkDebtorInfo "u" ⟨"0", "0", "u"⟩ ⟨1, 2, 3, "d", 4, "active", "p"⟩)]
        [("u", ["B"])] [("A", ⟨"u", "A"⟩), ("B", ⟨"u", "B"⟩)] ["B"]).connStates ∧
    (handleDisconnect (handleDisconnect (ServerState.mk
        [("u", mkDebtorInfo "u" ⟨"0", "0", "u"⟩ ⟨1, 2, 3, "d", 4, "active", "p"⟩)]
        [("u", ["B"])] [("A", ⟨"u", "A"⟩), ("B", ⟨"u", "B"⟩)] ["B"]) "A").state "A").state =
      (handleDisconnect (ServerState.mk
        [("u", mkDebtorInfo "u" ⟨"0", "0", "u"⟩ ⟨1, 2, 3, "d", 4, "active", "p"⟩)]
        [("u", ["B"])] [("A", ⟨"u", "A"⟩), ("B", ⟨"u", "B"⟩)] ["B"]) "A").state ∧
    (handleDisconnect (handleDisconnect (ServerState.mk
        [("u", mkDebtorInfo "u" ⟨"0", "0", "u"⟩ ⟨1, 2, 3, "d", 4, "active", "p"⟩)]
        [("u", ["B"])] [("A", ⟨"u", "A"⟩), ("B", ⟨"u", "B"⟩)] ["B"]) "A").state "A").sends = []) := by
  have hh : getA "A" (ServerState.mk
      [("u", mkDebtorInfo "u" ⟨"0", "0", "u"⟩ ⟨1, 2, 3, "d", 4, "active", "p"⟩)]
      [("u", ["B"])] [("A", ⟨"u", "A"⟩), ("B", ⟨"u", "B"⟩)] ["B"]).connStates = none ∨
      AlreadyDisconnected (ServerState.mk
        [("u", mkDebtorInfo "u" ⟨"0", "0", "u"⟩ ⟨1, 2, 3, "d", 4, "active", "p"⟩)]
        [("u", ["B"])] [("A", ⟨"u", "A"⟩), ("B", ⟨"u", "B"⟩)] ["B"]) "A" :=
    Or.inr ⟨⟨"u", "A"⟩, by decide, Or.inr ⟨["B"], by decide, by decide, by decide⟩⟩
  exact ⟨hh, C10_disconnect_idempotent _ "A" hh⟩

end Globe
